import Mathlib

/-!
Verification development for the authentication / credential-lifecycle subsystem
of the personal-tracker backend.

The JavaScript source is embedded shallowly:
* `userModel.js` (the Mongoose `userSchema`, its pre-save hook and instance
  methods) becomes `UserDoc`, `preSaveHashPassword`, `correctPassword`,
  `changePasswordAfter`, `isJWTExpired` and `createResetToken`;
* the auth controller's handlers (`signup`, `login`, `protect`,
  `forgotPassword`, `resetPassword`, `emailTokenVerify`, …) become functions
  from an explicit store (list of persisted user documents) and request data
  to an outcome (first error routed to `next`, or a success response) plus the
  store after the request's saves;
* the library collaborators (bcrypt, crypto's sha256/randomBytes, jsonwebtoken)
  are modelled as explicit executable functions whose only properties used here
  are the ones the source relies on (determinism, salt/cost formatting,
  verification against the embedded digest, signature matching).

Mongoose semantics that matter to the claims and are modelled explicitly:
* the schema runs in strict mode (the default), so an assignment to a path
  that `userSchema` does not declare is dropped by `save` — the persisted
  document is unchanged by such writes;
* with Mongoose 8 (`package.json` pins `mongoose ^8.16.4`) `strictQuery`
  defaults to `false`, so a query filter on an undeclared path is passed
  through to MongoDB and matches only documents carrying that path — and no
  persisted document can carry it.
-/

namespace PersonalTracker

/-! ### Hex encoding and the crypto digest model -/

/-- Lower-case hex digit for a value below 16. -/
def hexDigitChar (n : Nat) : Char :=
  if n < 10 then Char.ofNat (48 + n) else Char.ofNat (87 + n)

/-- Two hex characters for one byte. -/
def byteToHex (b : Nat) : List Char :=
  [hexDigitChar (b / 16 % 16), hexDigitChar (b % 16)]

/-- Model of `Buffer.toString('hex')`: hex-encode a byte list. -/
def bytesToHex (bs : List Nat) : String :=
  String.mk ((bs.map byteToHex).flatten)

/-- Model of `crypto.createHash('sha256').update(s).digest('hex')`.
The development only uses that the digest is a deterministic function of its
input (the source compares recomputed digests for equality), so the model
hex-encodes the input's code points as a stand-in for the real compression
function. -/
def sha256Hex (s : String) : String :=
  bytesToHex (s.data.map (fun c => c.toNat % 256))

/-! ### bcrypt model

`bcrypt.hash(pw, 12)` produces a modular-crypt-format string
`$2b$<cost>$<salt><digest>`; `bcrypt.compare(candidate, stored)` re-derives the
digest from the salt embedded in `stored` and compares.  The model keeps the
format and treats the digest as an injective function of the password (the
password itself), which is exactly the behaviour the source relies on:
`compare(p, hash(p))` succeeds and `compare(q, hash(p))` fails for `q ≠ p`.
The salt is threaded as an explicit argument (bcrypt draws it at random);
real bcrypt salts are base64 text, so they never contain the separator `$`. -/

/-- Model of `bcrypt.hash` with explicit cost and salt. -/
def bcrypt_hash (cost : Nat) (salt : String) (pw : String) : String :=
  "$2b$" ++ toString cost ++ "$" ++ salt ++ "$" ++ pw

/-- Drop characters through the n-th `$` separator (recursion on the list,
with the remaining separator count as a plain argument). -/
def dropDollarsAux : List Char → Nat → List Char
  | [], _ => []
  | c :: cs, n =>
    if n = 0 then c :: cs
    else if c = '$' then dropDollarsAux cs (n - 1)
    else dropDollarsAux cs n

/-- Drop characters through the n-th `$` separator. -/
def dropThroughDollars (n : Nat) (cs : List Char) : List Char :=
  dropDollarsAux cs n

/-- Model of `bcrypt.compare`: recover the digest part (after the fourth `$`:
version, cost, salt fields) and compare it with the candidate. -/
def bcrypt_compare (candidate stored : String) : Bool :=
  decide (candidate = String.mk (dropThroughDollars 4 stored.data))

/-! ### The user schema (`Models/userModel.js`)

`UserDoc` carries exactly the paths `userSchema` declares; strict mode means
nothing else survives a `save`.  In particular the schema declares
`passwordResetToken` / `passwordResetExpires` but no
`emailVerificationToken`, `emailVerificationExpires` or `isVerified` path. -/

structure UserDoc where
  id : Nat
  email : String
  password : Option String
  confirmPassword : Option String
  createdAt : Nat
  passwordChangedAt : Option Nat
  role : String
  passwordResetToken : Option String
  passwordResetExpires : Option Nat
deriving DecidableEq

/-- Stand-in for the external `validator.isEmail` check. -/
def emailWellFormed (s : String) : Bool :=
  s.data.contains '@'

/-- Messages of the schema validators that fail on a document (run by `save`
unless `validateBeforeSave: false` is passed).  Required validators fire on
undefined paths; length and match validators run on defined values only. -/
def userValidationErrors (u : UserDoc) : List String :=
  (if emailWellFormed u.email then [] else ["Please provide valid email address"])
  ++ (match u.password with
      | none => ["Password is required"]
      | some p =>
        (if p.length < 8 then ["Password must be at least 8 characters long"] else [])
        ++ (if 32 < p.length then ["Password must be at most 32 characters long"] else []))
  ++ (match u.confirmPassword with
      | none => ["Confirm Password is required"]
      | some c =>
        (if c.length < 8 then ["Confirm Password must be at least 8 characters long"] else [])
        ++ (if 32 < c.length then ["Confirm Password must be at most 32 characters long"] else [])
        ++ (if u.password = some c then [] else ["Passwords do not match"]))

/-- The document passes full validation. -/
def validUserDoc (u : UserDoc) : Bool :=
  (userValidationErrors u).isEmpty

/-- Model of the `userSchema.pre('save')` hook: when the password path was
modified, replace it by its bcrypt hash with cost 12 and discard the transient
`confirmPassword`; otherwise leave the document alone. -/
def preSaveHashPassword (u : UserDoc) (passwordModified : Bool) (salt : String) : UserDoc :=
  if passwordModified then
    { u with password := u.password.map (bcrypt_hash 12 salt),
             confirmPassword := none }
  else u

/-- Model of `userSchema.methods.correctPassword`. -/
def correctPassword (candidatePassword userPassword : String) : Bool :=
  bcrypt_compare candidatePassword userPassword

/-- Model of `userSchema.methods.changePasswordAfter`: the JS code compares
`jwtTimeStamp < passwordChangedAt.getTime() / 1000` with exact (floating)
division, i.e. `jwtTimeStamp * 1000 < passwordChangedAt` over integers; when
`passwordChangedAt` is unset it returns `false`. -/
def changePasswordAfter (u : UserDoc) (jwtTimeStamp : Nat) : Bool :=
  match u.passwordChangedAt with
  | some changedMs => decide (jwtTimeStamp * 1000 < changedMs)
  | none => false

/-- Model of `userSchema.methods.isJWTExpired`: `Date.now() >= jwtExpires * 1000`. -/
def isJWTExpired (nowMs : Nat) (jwtExpires : Nat) : Bool :=
  decide (jwtExpires * 1000 ≤ nowMs)

/-- Model of `userSchema.methods.createResetToken`: the raw token is the hex
encoding of 32 random bytes (`entropy` is the randomness drawn by
`crypto.randomBytes(32)`); the document stores the sha256 hex digest of the
raw token and an expiry of now + 10 minutes; the raw token is returned. -/
def createResetToken (u : UserDoc) (entropy : List Nat) (nowMs : Nat) : String × UserDoc :=
  let resetToken := bytesToHex entropy
  (resetToken,
   { u with passwordResetToken := some (sha256Hex resetToken),
            passwordResetExpires := some (nowMs + 10 * 60 * 1000) })

/-! ### Store (MongoDB collection of persisted user documents) -/

/-- The persisted collection. -/
abbrev Store := List UserDoc

/-- Model of `User.findOne({ email })`. -/
def findByEmail (store : Store) (email : String) : Option UserDoc :=
  store.find? (fun u => decide (u.email = email))

/-- Model of `User.findById(id)`. -/
def findById (store : Store) (id : Nat) : Option UserDoc :=
  store.find? (fun u => decide (u.id = id))

/-- Mongo `{ $gt: Date.now() }` on an optional date path: a missing path
matches nothing. -/
def mongoGtNow (field : Option Nat) (nowMs : Nat) : Bool :=
  match field with
  | some e => decide (nowMs < e)
  | none => false

/-- Model of
`User.findOne({ passwordResetToken: h, passwordResetExpires: { $gt: Date.now() } })`. -/
def findByResetToken (store : Store) (hashedToken : String) (nowMs : Nat) : Option UserDoc :=
  store.find? (fun u =>
    decide (u.passwordResetToken = some hashedToken) &&
    mongoGtNow u.passwordResetExpires nowMs)

/-- Model of
`User.findOne({ emailVerificationToken: h, emailVerificationExpires: { $gt: Date.now() } })`.
`userSchema` declares neither path, strict mode drops every write to them, and
Mongoose 8's default `strictQuery: false` passes the filter through to
MongoDB: no persisted document carries the paths, so the filter matches no
document. -/
def findByEmailVerificationToken (store : Store) (hashedToken : String) (nowMs : Nat) :
    Option UserDoc :=
  store.find? (fun _ =>
    false &&
    decide (hashedToken = hashedToken) &&
    decide (nowMs = nowMs))

/-- Persist a saved document: replace the stored document with the same id. -/
def saveToStore (store : Store) (u : UserDoc) : Store :=
  store.map (fun v => if v.id = u.id then u else v)

/-! ### Errors (`utils/appError.js`, `controllers/ErrorController.js`) -/

/-- Model of the `AppError` class: message, status code, and the derived
`error` field (`'Not found'` for 404, `'Bad Request'` otherwise). -/
structure AppError where
  message : String
  statusCode : Nat
  error : String
deriving DecidableEq

/-- Model of `new AppError(message, statusCode)`. -/
def mkAppError (message : String) (statusCode : Nat) : AppError :=
  { message := message, statusCode := statusCode,
    error := if statusCode = 404 then "Not found" else "Bad Request" }

/-- Failures of `jwt.verify` (`jsonwebtoken` checks the signature, then the
`exp` claim against `floor(Date.now() / 1000)`). -/
inductive JwtError where
  | invalidSignature
  | tokenExpired
deriving DecidableEq

/-- The error value handed to `next` / thrown inside a handler.  `catchAsync`
forwards rejections to `next`, and the global handler turns the first such
error into the response.  `runtime` covers thrown JavaScript errors
(TypeError, ReferenceError) which carry no `statusCode`; `validation` covers
Mongoose validation failures on `save`. -/
inductive ServerError where
  | app (e : AppError)
  | runtime (message : String)
  | validation (messages : List String)
  | jwt (e : JwtError)
deriving DecidableEq

/-! ### JWT model (`jsonwebtoken`) -/

/-- Decoded token payload: `jwt.sign({ id }, …)` adds `iat` and `exp`
(seconds). -/
structure Jwt where
  id : Nat
  iat : Nat
  exp : Nat
deriving DecidableEq

/-- A signed token; `sig` models the signature over the payload with the
signing secret. -/
structure SignedJwt where
  payload : Jwt
  sig : Nat
deriving DecidableEq

/-- Model of `signToken` in the auth controller: `jwt.sign({ id }, JWT_SECRET,
{ expiresIn: JWT_EXPIRES_IN })`. -/
def signToken (id : Nat) (secret : Nat) (nowSec : Nat) (expiresInSec : Nat) : SignedJwt :=
  { payload := { id := id, iat := nowSec, exp := nowSec + expiresInSec },
    sig := secret }

/-- Model of `jwt.verify`: reject a wrong signature, then reject
`floor(now / 1000) ≥ exp`. -/
def jwtVerify (t : SignedJwt) (secret : Nat) (nowMs : Nat) : Except JwtError Jwt :=
  if t.sig ≠ secret then .error .invalidSignature
  else if t.payload.exp ≤ nowMs / 1000 then .error .tokenExpired
  else .ok t.payload

/-! ### Responses -/

/-- The JSON body + status a handler sends. -/
structure HttpResponse where
  statusCode : Nat
  status : String
  message : Option String
  token : Option SignedJwt
  user : Option UserDoc
deriving DecidableEq

/-- Model of the production branch of `globalErrorHandler`
(`controllers/ErrorController.js`): an `AppError` keeps its own status code
(its class sets no `status` field, so `err.status || 'error'` is `'error'`);
a thrown runtime error has no `statusCode` and becomes 500; a Mongoose
validation error's message starts `'User validation failed: …'`, which does
not contain the case-sensitive `'Validation failed'` probe, so it also falls
through to 500 with the raw message; a `JsonWebTokenError` is mapped to 401,
while a `TokenExpiredError` is not name-matched and falls through to 500. -/
def globalErrorHandler : ServerError → HttpResponse
  | .app e =>
    { statusCode := e.statusCode, status := "error", message := some e.message,
      token := none, user := none }
  | .runtime m =>
    { statusCode := 500, status := "error", message := some m,
      token := none, user := none }
  | .validation msgs =>
    { statusCode := 500, status := "error",
      message := some ("User validation failed: " ++ String.intercalate ", " msgs),
      token := none, user := none }
  | .jwt .invalidSignature =>
    { statusCode := 401, status := "error",
      message := some ("Invalid token. Please log in again!"),
      token := none, user := none }
  | .jwt .tokenExpired =>
    { statusCode := 500, status := "error", message := some ("jwt expired"),
      token := none, user := none }

/-- The response the client finally sees: the handler's own response, or the
first error routed through the global error handler. -/
def finalResponse (r : Except ServerError HttpResponse) : HttpResponse :=
  match r with
  | .ok res => res
  | .error e => globalErrorHandler e

/-- Model of `createSendToken(res, token, statusCode, user)`: sets the cookie
and responds with the token and the sanitized user.  When the `user` argument
is omitted (`undefined`), the very first statement
`user.password = undefined` throws a TypeError before anything is sent. -/
def createSendToken (token : SignedJwt) (statusCode : Nat) (user : Option UserDoc) :
    Except ServerError HttpResponse :=
  match user with
  | none => .error (.runtime ("Cannot set properties of undefined (setting 'password')"))
  | some u =>
    .ok { statusCode := statusCode, status := "success", message := none,
          token := some token,
          user := some { u with password := none, confirmPassword := none } }

/-- Outcome of a handler that may save documents: the routed result and the
store after the request's saves. -/
instance : DecidableEq (Except ServerError HttpResponse) := fun a b =>
  match a, b with
  | .ok x, .ok y =>
    if h : x = y then .isTrue (by rw [h]) else .isFalse (by intro hc; cases hc; exact h rfl)
  | .ok _, .error _ => .isFalse (by intro hc; cases hc)
  | .error _, .ok _ => .isFalse (by intro hc; cases hc)
  | .error x, .error y =>
    if h : x = y then .isTrue (by rw [h]) else .isFalse (by intro hc; cases hc; exact h rfl)

structure FlowResult where
  result : Except ServerError HttpResponse
  store : Store
deriving DecidableEq

/-! ### Handlers (auth controller) -/

/-- JavaScript falsiness of an optional string (absent or empty). -/
def jsFalsyString : Option String → Bool
  | none => true
  | some s => decide (s = "")

/-- Model of the `login` handler: require email and password, look up the user
by email, verify the password with bcrypt, and answer with a fresh session
token.  A missing user and a wrong password share one combined check and one
error.  A stored document always carries a password hash; were it absent,
`bcrypt.compare` would reject (modelled as a failed comparison, the branch is
unreachable for persisted users). -/
def login (store : Store) (secret nowMs expiresInSec : Nat)
    (emailField passwordField : Option String) : Except ServerError HttpResponse :=
  if jsFalsyString emailField || jsFalsyString passwordField then
    .error (.app (mkAppError ("Please provide email and password!") 400))
  else
    let email := emailField.getD ""
    let password := passwordField.getD ""
    match findByEmail store email with
    | none => .error (.app (mkAppError ("Incorrect email or password") 401))
    | some user =>
      let passwordOk := match user.password with
        | some h => correctPassword password h
        | none => false
      if passwordOk then
        createSendToken (signToken user.id secret (nowMs / 1000) expiresInSec) 200 (some user)
      else
        .error (.app (mkAppError ("Incorrect email or password") 401))

/-- Executable model of `String.prototype.startsWith` (a prefix test on the
character list). -/
def strStartsWith (s pre : String) : Bool :=
  pre.data.isPrefixOf s.data

/-- Executable model of `String.prototype.toLowerCase` (lower-casing the
character list). -/
def strToLower (s : String) : String :=
  String.mk (s.data.map Char.toLower)

/-- Outcome of the `protect` middleware: the first error routed to `next`, or
the request context with the resolved user attached. -/
inductive ProtectResult where
  | rejected (e : ServerError)
  | authorized (user : UserDoc)
deriving DecidableEq

/-- Model of the `protect` middleware.  The authorization header is modelled
as an optional pair of the scheme word and the carried token.  When the
decoded id resolves to no user, `valdidateResourceExists(user, 'user', next)`
routes `new AppError('User not found!', 404)` to `next`; the handler lacks a
`return` there, so it goes on to dereference the missing user and throws, but
Express has already routed the first error — the 404 is the response, and no
user is attached. -/
def protect (store : Store) (secret : Nat) (auth : Option (String × SignedJwt))
    (nowMs : Nat) : ProtectResult :=
  match auth with
  | none =>
    .rejected (.app (mkAppError ("You are not logged in. Please log in to get access") 401))
  | some (scheme, signedTok) =>
    if ¬ strStartsWith scheme ("Bearer") then
      .rejected (.app (mkAppError ("You are not logged in. Please log in to get access") 401))
    else
      match jwtVerify signedTok secret nowMs with
      | .error e => .rejected (.jwt e)
      | .ok decoded =>
        match findById store decoded.id with
        | none => .rejected (.app (mkAppError ("User not found!") 404))
        | some user =>
          if changePasswordAfter user decoded.iat && !(isJWTExpired nowMs decoded.exp) then
            .rejected
              (.app (mkAppError ("Password changed after token issued! Please log in again.") 401))
          else
            .authorized user

/-- Model of the `signup` handler: `User.create` lower-cases the email, builds
the document (no `passwordChangedAt`, role defaults to `'user'`, `createdAt`
takes the schema default), validates it, runs the pre-save hash, and inserts;
a duplicate email violates the unique index (E11000, mapped to a 400 by the
error controller).  On success a session token is issued and
`createSendToken` responds 201. -/
def signup (store : Store) (secret nowMs expiresInSec : Nat) (salt : String)
    (freshId : Nat) (createdAtDefault : Nat)
    (emailField passwordField confirmPasswordField : Option String) : FlowResult :=
  match emailField with
  | none =>
    { result := .error (.runtime ("Cannot read properties of undefined (reading 'toLowerCase')")),
      store := store }
  | some email =>
    let staged : UserDoc :=
      { id := freshId, email := strToLower email, password := passwordField,
        confirmPassword := confirmPasswordField, createdAt := createdAtDefault,
        passwordChangedAt := none, role := "user",
        passwordResetToken := none, passwordResetExpires := none }
    if ¬ validUserDoc staged then
      { result := .error (.validation (userValidationErrors staged)), store := store }
    else if (findByEmail store staged.email).isSome then
      { result := .error (.app (mkAppError
          ("Duplicate field values: email: " ++ staged.email ++ ".") 400)),
        store := store }
    else
      let user := preSaveHashPassword staged true salt
      let store1 := store ++ [user]
      { result := createSendToken (signToken user.id secret (nowMs / 1000) expiresInSec) 201
          (some user),
        store := store1 }

/-- Model of the `forgotPassword` handler.  `createResetToken` stages the
hashed token and expiry, `save({ validateBeforeSave: false })` persists them
(the password path is untouched, so the pre-save hook does not re-hash).  On
email-delivery failure the catch block assigns `undefined` to
`resetPasswordToken` / `resetPasswordExpires` — paths `userSchema` does not
declare (it declares `passwordResetToken` / `passwordResetExpires`), so
strict mode drops both writes and the compensating save persists the document
unchanged, reset hash and expiry included; then it fails with a 500. -/
def forgotPassword (store : Store) (emailField : Option String) (entropy : List Nat)
    (nowMs : Nat) (emailDeliveryOk : Bool) : FlowResult :=
  match emailField with
  | none =>
    { result := .error (.app (mkAppError ("Email is required") 400)), store := store }
  | some email =>
    match findByEmail store (strToLower email) with
    | none =>
      { result := .error (.app (mkAppError ("There is no user with that email address.") 404)),
        store := store }
    | some user =>
      let generated := createResetToken user entropy nowMs
      let user1 := generated.2
      let store1 := saveToStore store user1
      if emailDeliveryOk then
        let okResp : HttpResponse :=
          { statusCode := 200, status := "success",
            message := some ("Token sent to email!"), token := none, user := none }
        { result := .ok okResp, store := store1 }
      else
        { result := .error (.app (mkAppError
            ("There was an error sending the email. Try again later!") 500)),
          store := saveToStore store1 user1 }

/-- Model of the `resetPassword` handler.  It hashes the supplied raw token,
looks the user up by stored hash with an unexpired expiry, stages the new
password, confirmation and `passwordChangedAt`, and saves with full
validation (the pre-save hook re-hashes).  The assignments
`user.resetPasswordToken = undefined` / `user.resetPasswordExpires = undefined`
target paths `userSchema` does not declare (the schema fields are spelled
`passwordResetToken` / `passwordResetExpires`), so strict mode drops both
writes: the stored reset hash and expiry persist unchanged.  Finally the
handler calls `createSendToken(res, jwtToken, 200)` with the user argument
omitted, which throws before any success response is sent. -/
def resetPassword (store : Store) (rawToken : String)
    (passwordField confirmPasswordField : Option String)
    (nowMs : Nat) (secret expiresInSec : Nat) (salt : String) : FlowResult :=
  let hashedToken := sha256Hex rawToken
  match findByResetToken store hashedToken nowMs with
  | none =>
    { result := .error (.app (mkAppError ("Token is invalid or has expired") 400)),
      store := store }
  | some user =>
    let staged : UserDoc :=
      { user with password := passwordField, confirmPassword := confirmPasswordField,
                  passwordChangedAt := some nowMs }
    if validUserDoc staged then
      let updatedUser := preSaveHashPassword staged true salt
      let store1 := saveToStore store updatedUser
      let jwtToken := signToken updatedUser.id secret (nowMs / 1000) expiresInSec
      { result := createSendToken jwtToken 200 none, store := store1 }
    else
      { result := .error (.validation (userValidationErrors staged)), store := store }

/-- Model of the `emailVerifyTokenSend` handler (runs behind `protect`).  It
calls `user.createResetToken()` — whose side effect sets the *password* reset
fields — hashes the returned raw token again and assigns it to
`emailVerificationToken` / `emailVerificationExpires`, paths `userSchema`
does not declare, so the `save({ validateBeforeSave: false })` persists only
the password-reset fields.  The catch block references an unbound `error`
variable, so a delivery failure surfaces as a thrown ReferenceError after the
compensating save. -/
def emailVerifyTokenSend (store : Store) (reqUser : Option UserDoc) (entropy : List Nat)
    (nowMs : Nat) (emailDeliveryOk : Bool) : FlowResult :=
  match reqUser with
  | none =>
    { result := .error (.app (mkAppError ("User not found!") 404)), store := store }
  | some user =>
    let generated := createResetToken user entropy nowMs
    let user1 := generated.2
    let store1 := saveToStore store user1
    if emailDeliveryOk then
      let okResp : HttpResponse :=
        { statusCode := 200, status := "success",
          message := some ("Verification email sent successfully. Please check your inbox."),
          token := none, user := none }
      { result := .ok okResp, store := store1 }
    else
      { result := .error (.runtime ("error is not defined")),
        store := saveToStore store1 user1 }

/-- Model of the `emailTokenVerify` handler: hash the raw token from the path
and look the user up by `emailVerificationToken` / `emailVerificationExpires`.
No persisted document carries those paths (they are absent from
`userSchema`), so the lookup never succeeds and the handler always answers
400.  The success branch is kept faithful to the source: it flips
`isVerified`, clears the verification paths (all writes to undeclared paths,
dropped by the save) and responds with the user. -/
def emailTokenVerify (store : Store) (rawToken : String) (nowMs : Nat) : FlowResult :=
  let hashedToken := sha256Hex rawToken
  match findByEmailVerificationToken store hashedToken nowMs with
  | none =>
    { result := .error (.app (mkAppError ("Token is invalid or has expired") 400)),
      store := store }
  | some user =>
    let store1 := saveToStore store user
    let okResp : HttpResponse :=
      { statusCode := 200, status := "success",
        message := some ("Email verified successfully"), token := none, user := some user }
    { result := .ok okResp, store := store1 }

/-! ### Sample data used by the concrete witnesses -/

/-- A persisted user: hashed password, an outstanding reset token for the raw
token value `"tok"`, expiry at 600000 ms. -/
def sampleUser : UserDoc :=
  { id := 1, email := "a@b.com",
    password := some (bcrypt_hash 12 ("abcdefghijklmnopqrstuv") ("password123")),
    confirmPassword := none, createdAt := 0, passwordChangedAt := none,
    role := "user",
    passwordResetToken := some (sha256Hex ("tok")),
    passwordResetExpires := some 600000 }

/-- A token for user 5 signed with secret 0, issued at 0, expiring at 10 s. -/
def sampleToken : SignedJwt :=
  { payload := { id := 5, iat := 0, exp := 10 }, sig := 0 }

/-! ### Helper lemmas -/

/-- A member satisfying the predicate guarantees `find?` returns a hit that
satisfies the predicate. -/
theorem exists_find?_of_mem {α : Type} (p : α → Bool) {l : List α} {a : α}
    (hmem : a ∈ l) (hp : p a = true) : ∃ w, l.find? p = some w ∧ p w = true := by
  induction l with
  | nil => cases hmem
  | cons b bs ih =>
    cases hpb : p b with
    | true => exact ⟨b, List.find?_cons_of_pos bs hpb, hpb⟩
    | false =>
      rcases List.mem_cons.mp hmem with h1 | h2
      · rw [← h1, hp] at hpb; cases hpb
      · obtain ⟨w, hw, hpw⟩ := ih h2
        exact ⟨w, by rw [List.find?_cons_of_neg bs (by simp [hpb]), hw], hpw⟩

/-- `find?` with an everywhere-false predicate finds nothing. -/
theorem find?_of_false {α : Type} (p : α → Bool) (l : List α)
    (hp : ∀ x, p x = false) : l.find? p = none :=
  List.find?_eq_none.mpr (fun x _ => by simp [hp x])

/-- Skipping to a `$` ignores a `$`-free prefix. -/
theorem dropDollarsAux_append (n : Nat) (l r : List Char) (h : '$' ∉ l) (hn : n ≠ 0) :
    dropDollarsAux (l ++ r) n = dropDollarsAux r n := by
  induction l with
  | nil => rfl
  | cons c cs ih =>
    simp only [List.mem_cons, not_or] at h
    have hc : ¬ c = '$' := fun hcc => h.1 hcc.symm
    simp only [List.cons_append, dropDollarsAux, if_neg hn, if_neg hc]
    exact ih h.2

/-- Dropping through zero separators is the identity. -/
theorem dropDollarsAux_zero (cs : List Char) : dropDollarsAux cs 0 = cs := by
  cases cs with
  | nil => rfl
  | cons c tl => simp [dropDollarsAux]

/-- The digest part of a modelled bcrypt hash is exactly the hashed password
(for a salt free of the `$` separator, as real base64 bcrypt salts are). -/
theorem bcrypt_digest (salt pw : String) (h : '$' ∉ salt.data) :
    dropThroughDollars 4 (bcrypt_hash 12 salt pw).data = pw.data := by
  have h1 : (bcrypt_hash 12 salt pw).data
      = ((['$', '2', 'b', '$', '1', '2', '$'] ++ salt.data) ++ ['$']) ++ pw.data := rfl
  show dropDollarsAux (bcrypt_hash 12 salt pw).data 4 = pw.data
  rw [h1, List.append_assoc, List.append_assoc]
  show dropDollarsAux (salt.data ++ (['$'] ++ pw.data)) 1 = pw.data
  rw [dropDollarsAux_append 1 salt.data (['$'] ++ pw.data) h (by omega)]
  show dropDollarsAux pw.data 0 = pw.data
  exact dropDollarsAux_zero pw.data

/-- `bcrypt.compare` against a modelled hash succeeds exactly for the hashed
password. -/
theorem bcrypt_compare_hash (salt pw c : String) (h : '$' ∉ salt.data) :
    bcrypt_compare c (bcrypt_hash 12 salt pw) = decide (c = pw) := by
  unfold bcrypt_compare
  rw [bcrypt_digest salt pw h]

/-- A modelled bcrypt hash is never the plaintext it hashes. -/
theorem bcrypt_hash_ne (salt pw : String) : bcrypt_hash 12 salt pw ≠ pw := by
  intro hEq
  have hdata := congrArg String.data hEq
  have h1 : (bcrypt_hash 12 salt pw).data
      = ((['$', '2', 'b', '$', '1', '2', '$'] ++ salt.data) ++ ['$']) ++ pw.data := rfl
  rw [h1] at hdata
  have hlen := congrArg List.length hdata
  simp only [List.length_append, List.length_cons] at hlen
  omega

/-- Hex encoding doubles the length. -/
theorem bytesToHex_length (bs : List Nat) : (bytesToHex bs).length = 2 * bs.length := by
  induction bs with
  | nil => rfl
  | cons b tl ih =>
    show (((b :: tl).map byteToHex).flatten).length = 2 * (b :: tl).length
    have ih' : ((tl.map byteToHex).flatten).length = 2 * tl.length := ih
    simp only [List.map_cons, List.flatten_cons, List.length_append, List.length_cons]
    rw [ih']
    have hb : (byteToHex b).length = 2 := rfl
    rw [hb]
    omega

/-- A stored member with a matching reset hash and a live expiry makes the
reset-token lookup succeed, and the hit again carries a matching hash and a
live expiry. -/
theorem findByResetToken_of_mem (store : Store) (h : String) (nowMs : Nat)
    (w : UserDoc) (e : Nat) (hmem : w ∈ store)
    (htok : w.passwordResetToken = some h)
    (hexp : w.passwordResetExpires = some e) (hnow : nowMs < e) :
    ∃ v, findByResetToken store h nowMs = some v ∧
      v.passwordResetToken = some h ∧
      ∃ e2, v.passwordResetExpires = some e2 ∧ nowMs < e2 := by
  have hp : (fun u => decide (u.passwordResetToken = some h) &&
      mongoGtNow u.passwordResetExpires nowMs) w = true := by
    simp [htok, hexp, mongoGtNow, hnow]
  obtain ⟨v, hv, hpv⟩ := exists_find?_of_mem
    (fun u => decide (u.passwordResetToken = some h) &&
      mongoGtNow u.passwordResetExpires nowMs) hmem hp
  rw [Bool.and_eq_true] at hpv
  refine ⟨v, hv, ?_, ?_⟩
  · exact of_decide_eq_true hpv.1
  · have h2 := hpv.2
    cases hve : v.passwordResetExpires with
    | none => rw [hve] at h2; simp [mongoGtNow] at h2
    | some e2 =>
      rw [hve] at h2
      simp only [mongoGtNow, decide_eq_true_eq] at h2
      exact ⟨e2, rfl, h2⟩

/-- Saving a document whose id is already present leaves it a member of the
resulting store. -/
theorem mem_saveToStore (store : Store) (u w : UserDoc)
    (hw : w ∈ store) (hid : w.id = u.id) : u ∈ saveToStore store u := by
  unfold saveToStore
  exact List.mem_map.mpr ⟨w, hw, by simp [hid]⟩

/-- Unfolding of `protect` on a present authorization header. -/
theorem protect_some (store : Store) (secret : Nat) (scheme : String)
    (tok : SignedJwt) (nowMs : Nat) :
    protect store secret (some (scheme, tok)) nowMs =
      if ¬ strStartsWith scheme ("Bearer") = true then
        .rejected (.app (mkAppError
          ("You are not logged in. Please log in to get access") 401))
      else
        match jwtVerify tok secret nowMs with
        | .error e => .rejected (.jwt e)
        | .ok decoded =>
          match findById store decoded.id with
          | none => .rejected (.app (mkAppError ("User not found!") 404))
          | some user =>
            if changePasswordAfter user decoded.iat && !isJWTExpired nowMs decoded.exp then
              .rejected (.app (mkAppError
                ("Password changed after token issued! Please log in again.") 401))
            else .authorized user := rfl

/-- The sample user with the token's subject id and a later password change. -/
def staleUser : UserDoc :=
  { id := 5, email := "a@b.com",
    password := some (bcrypt_hash 12 ("abcdefghijklmnopqrstuv") ("password123")),
    confirmPassword := none, createdAt := 0, passwordChangedAt := some 5000,
    role := "user", passwordResetToken := none, passwordResetExpires := none }

/-- The sample user with the token's subject id and no password change. -/
def freshUser : UserDoc :=
  { id := 5, email := "a@b.com",
    password := some (bcrypt_hash 12 ("abcdefghijklmnopqrstuv") ("password123")),
    confirmPassword := none, createdAt := 0, passwordChangedAt := none,
    role := "user", passwordResetToken := none, passwordResetExpires := none }

/-- A user document as staged by a signup request (pre-save state). -/
def sampleSignupUser : UserDoc :=
  { id := 2, email := "b@c.com", password := some ("password123"),
    confirmPassword := some ("password123"), createdAt := 0,
    passwordChangedAt := none, role := "user",
    passwordResetToken := none, passwordResetExpires := none }

/-! ### Claim theorems -/

/-- C7: a save with a newly set or replaced password stores the salted bcrypt
hash with cost factor 12 (never equal to the submitted plaintext), discards
the transient confirmPassword before storage, correctPassword accepts exactly
the original plaintext against the stored hash, and a save that does not
modify the password changes nothing. -/
theorem password_hashing_contract (u : UserDoc) (pw salt : String)
    (hpw : u.password = some pw) (hsalt : '$' ∉ salt.data) :
    (preSaveHashPassword u true salt).password = some (bcrypt_hash 12 salt pw) ∧
    bcrypt_hash 12 salt pw ≠ pw ∧
    (preSaveHashPassword u true salt).confirmPassword = none ∧
    correctPassword pw (bcrypt_hash 12 salt pw) = true ∧
    (∀ other : String, other ≠ pw →
      correctPassword other (bcrypt_hash 12 salt pw) = false) ∧
    (∀ v : UserDoc, preSaveHashPassword v false salt = v) := by
  refine ⟨?_, bcrypt_hash_ne salt pw, ?_, ?_, ?_, ?_⟩
  · simp [preSaveHashPassword, hpw]
  · simp [preSaveHashPassword]
  · rw [correctPassword, bcrypt_compare_hash salt pw pw hsalt]
    simp
  · intro other hne
    rw [correctPassword, bcrypt_compare_hash salt pw other hsalt]
    simp [hne]
  · intro v
    simp [preSaveHashPassword]

/-- C7 witness at a concrete signup document, plaintext and salt. -/
theorem password_hashing_contract_witness :
    (preSaveHashPassword sampleSignupUser true ("abcdefghijklmnopqrstuv")).password
      = some (bcrypt_hash 12 ("abcdefghijklmnopqrstuv") ("password123")) ∧
    correctPassword ("password123")
      (bcrypt_hash 12 ("abcdefghijklmnopqrstuv") ("password123")) = true ∧
    correctPassword ("hunter2aa")
      (bcrypt_hash 12 ("abcdefghijklmnopqrstuv") ("password123")) = false := by
  have h := password_hashing_contract sampleSignupUser ("password123")
    ("abcdefghijklmnopqrstuv") (by rfl) (by decide)
  exact ⟨h.1, h.2.2.2.1, h.2.2.2.2.1 ("hunter2aa") (by decide)⟩

/-- C8: createResetToken returns the hex encoding of the 32 random bytes (64
hex characters), stores exactly the sha256 hex digest of that raw token and
an expiry of generation time + 10 minutes, and consuming the raw token before
the expiry (the reset lookup recomputes the digest) finds a user whose stored
hash equals the recomputed digest. -/
theorem createResetToken_roundtrip (u : UserDoc) (entropy : List Nat) (t : Nat)
    (store : Store) (consumeAt : Nat) (hlen : entropy.length = 32)
    (hmem : (createResetToken u entropy t).2 ∈ store)
    (hfresh : consumeAt < t + 10 * 60 * 1000) :
    (createResetToken u entropy t).1 = bytesToHex entropy ∧
    ((createResetToken u entropy t).1).length = 64 ∧
    ((createResetToken u entropy t).2).passwordResetToken
      = some (sha256Hex (createResetToken u entropy t).1) ∧
    ((createResetToken u entropy t).2).passwordResetExpires
      = some (t + 10 * 60 * 1000) ∧
    ∃ v, findByResetToken store (sha256Hex (createResetToken u entropy t).1) consumeAt
        = some v ∧
      v.passwordResetToken = some (sha256Hex (createResetToken u entropy t).1) := by
  refine ⟨rfl, ?_, rfl, rfl, ?_⟩
  · show (bytesToHex entropy).length = 64
    rw [bytesToHex_length, hlen]
  · obtain ⟨v, hv, hvt, _⟩ := findByResetToken_of_mem store
      (sha256Hex (createResetToken u entropy t).1) consumeAt
      ((createResetToken u entropy t).2) (t + 10 * 60 * 1000) hmem rfl rfl hfresh
    exact ⟨v, hv, hvt⟩

/-- C8 witness: a concrete generate-then-consume round trip. -/
theorem createResetToken_roundtrip_witness :
    ((createResetToken sampleSignupUser (List.range 32) 0).1).length = 64 ∧
    (∃ v, findByResetToken [(createResetToken sampleSignupUser (List.range 32) 0).2]
        (sha256Hex (createResetToken sampleSignupUser (List.range 32) 0).1) 1000
        = some v ∧
      v.passwordResetToken
        = some (sha256Hex (createResetToken sampleSignupUser (List.range 32) 0).1)) := by
  have h := createResetToken_roundtrip sampleSignupUser (List.range 32) 0
    [(createResetToken sampleSignupUser (List.range 32) 0).2] 1000
    (by decide) (by simp) (by decide)
  exact ⟨h.2.1, h.2.2.2.2⟩

/-- C2: the protect gate rejects with 401 "Password changed after token
issued! Please log in again." every verified request whose resolved user has
passwordChangedAt strictly after the token's issued-at while the token's own
expiry has not elapsed; and a successful Reset Password persists
passwordChangedAt = the reset time, so every session token issued strictly
before a completed reset is stale afterwards even though unexpired. -/
theorem protect_rejects_stale_token :
    (∀ (store : Store) (secret : Nat) (scheme : String) (tok : SignedJwt)
       (nowMs : Nat) (u : UserDoc) (changedMs : Nat),
      strStartsWith scheme ("Bearer") = true →
      tok.sig = secret →
      nowMs / 1000 < tok.payload.exp →
      findById store tok.payload.id = some u →
      u.passwordChangedAt = some changedMs →
      tok.payload.iat * 1000 < changedMs →
      protect store secret (some (scheme, tok)) nowMs =
        .rejected (.app (mkAppError
          ("Password changed after token issued! Please log in again.") 401))) ∧
    (∀ (store : Store) (raw : String) (pw cpw : Option String)
       (resetAt secret expIn : Nat) (salt : String) (u : UserDoc),
      findByResetToken store (sha256Hex raw) resetAt = some u →
      validUserDoc { u with password := pw, confirmPassword := cpw,
                            passwordChangedAt := some resetAt } = true →
      ∃ u2, (resetPassword store raw pw cpw resetAt secret expIn salt).store
          = saveToStore store u2 ∧
        u2.passwordChangedAt = some resetAt ∧
        ∀ iat, iat * 1000 < resetAt → changePasswordAfter u2 iat = true) := by
  constructor
  · intro store secret scheme tok nowMs u changedMs hscheme hsig hunexp hfind hchanged hstale
    have hnotexp : ¬ tok.payload.exp ≤ nowMs / 1000 := Nat.not_le.mpr hunexp
    have hms : nowMs < tok.payload.exp * 1000 :=
      (Nat.div_lt_iff_lt_mul (by omega)).mp hunexp
    have hbv : jwtVerify tok secret nowMs = .ok tok.payload := by
      unfold jwtVerify
      rw [if_neg (by simp [hsig]), if_neg hnotexp]
    have hcpa : changePasswordAfter u tok.payload.iat = true := by
      unfold changePasswordAfter
      rw [hchanged]
      simp [hstale]
    have hjexp : isJWTExpired nowMs tok.payload.exp = false := by
      unfold isJWTExpired
      simp [Nat.not_le.mpr hms]
    simp [protect, hscheme, hbv, hfind, hcpa, hjexp]
  · intro store raw pw cpw resetAt secret expIn salt u hfind hvalid
    refine ⟨preSaveHashPassword
      { u with password := pw, confirmPassword := cpw,
               passwordChangedAt := some resetAt } true salt, ?_, ?_, ?_⟩
    · simp only [resetPassword]
      rw [hfind]
      simp [hvalid]
    · simp [preSaveHashPassword]
    · intro iat hiat
      unfold changePasswordAfter
      simp [preSaveHashPassword, hiat]

/-- C2 witness: a concrete stale request and a concrete reset persisting
passwordChangedAt. -/
theorem protect_rejects_stale_token_witness :
    protect [staleUser] 0 (some (("Bearer"), sampleToken)) 0
      = .rejected (.app (mkAppError
          ("Password changed after token issued! Please log in again.") 401)) ∧
    (∃ u2, (resetPassword [sampleUser] ("tok") (some ("newpass123"))
          (some ("newpass123")) 1000 0 100 ("abcdefghijklmnopqrstuv")).store
        = saveToStore [sampleUser] u2 ∧
      u2.passwordChangedAt = some 1000 ∧
      ∀ iat, iat * 1000 < 1000 → changePasswordAfter u2 iat = true) := by
  constructor
  · exact protect_rejects_stale_token.1 [staleUser] 0 ("Bearer") sampleToken 0
      staleUser 5000
      (by decide) (by decide) (by decide) (by decide) (by decide) (by decide)
  · exact protect_rejects_stale_token.2 [sampleUser] ("tok") (some ("newpass123"))
      (some ("newpass123")) 1000 0 100 ("abcdefghijklmnopqrstuv") sampleUser
      (by decide) (by decide)

/-- C10: changePasswordAfter is false for every issued-at when
passwordChangedAt is unset, signup creates its user with passwordChangedAt
unset, and protect can never reject such a user's request with the
password-changed 401. -/
theorem fresh_user_token_never_stale :
    (∀ (u : UserDoc) (iat : Nat), u.passwordChangedAt = none →
      changePasswordAfter u iat = false) ∧
    (∀ (store : Store) (secret nowMs expIn : Nat) (salt : String)
       (freshId createdAt : Nat) (e p c : Option String) (r : HttpResponse)
       (u : UserDoc),
      (signup store secret nowMs expIn salt freshId createdAt e p c).result = .ok r →
      r.user = some u → u.passwordChangedAt = none) ∧
    (∀ (store : Store) (secret : Nat) (scheme : String) (tok : SignedJwt)
       (nowMs : Nat) (u : UserDoc),
      findById store tok.payload.id = some u → u.passwordChangedAt = none →
      protect store secret (some (scheme, tok)) nowMs ≠
        .rejected (.app (mkAppError
          ("Password changed after token issued! Please log in again.") 401))) := by
  refine ⟨?_, ?_, ?_⟩
  · intro u iat hnone
    unfold changePasswordAfter
    rw [hnone]
  · intro store secret nowMs expIn salt freshId createdAt e p c r u hok huser
    cases e with
    | none => simp [signup] at hok
    | some email =>
      unfold signup at hok
      simp only at hok
      split at hok
      · cases hok
      · split at hok
        · cases hok
        · unfold createSendToken at hok
          simp only [Except.ok.injEq] at hok
          rw [← hok] at huser
          simp only [Option.some.injEq] at huser
          rw [← huser]
          simp [preSaveHashPassword]
  · intro store secret scheme tok nowMs u hfind hnone hcontra
    have hcpa : changePasswordAfter u tok.payload.iat = false := by
      unfold changePasswordAfter
      rw [hnone]
    rw [protect_some] at hcontra
    by_cases hsch : ¬ strStartsWith scheme ("Bearer") = true
    · rw [if_pos hsch] at hcontra
      exact absurd hcontra (by decide)
    · rw [if_neg hsch] at hcontra
      cases hjv : jwtVerify tok secret nowMs with
      | error e => rw [hjv] at hcontra; simp at hcontra
      | ok decoded =>
        rw [hjv] at hcontra
        have hdec : decoded = tok.payload := by
          unfold jwtVerify at hjv
          by_cases h1 : tok.sig ≠ secret
          · rw [if_pos h1] at hjv; cases hjv
          · rw [if_neg h1] at hjv
            by_cases h2 : tok.payload.exp ≤ nowMs / 1000
            · rw [if_pos h2] at hjv; cases hjv
            · rw [if_neg h2] at hjv; exact (Except.ok.inj hjv).symm
        rw [hdec] at hcontra
        simp [hfind, hcpa] at hcontra

/-- C10 witness: a signup-created user and the gate on its token. -/
theorem fresh_user_token_never_stale_witness :
    changePasswordAfter sampleSignupUser 0 = false ∧
    protect [freshUser] 0 (some (("Bearer"), sampleToken)) 0 ≠
      .rejected (.app (mkAppError
        ("Password changed after token issued! Please log in again.") 401)) := by
  constructor
  · exact fresh_user_token_never_stale.1 sampleSignupUser 0 (by decide)
  · exact fresh_user_token_never_stale.2.2 [freshUser] 0 ("Bearer")
      sampleToken 0 freshUser (by decide) (by decide)

/-- C6: a login with an unknown email and a login with a known email but a
wrong password produce the same error value — same kind (AppError), same
status code 401, same message — so the two failures are indistinguishable. -/
theorem login_failures_indistinguishable (store : Store) (secret nowMs expIn : Nat)
    (e1 p1 e2 p2 : String) (u : UserDoc) (h : String)
    (he1 : e1 ≠ "") (hp1 : p1 ≠ "")
    (hnouser : findByEmail store e1 = none)
    (he2 : e2 ≠ "") (hp2 : p2 ≠ "")
    (huser : findByEmail store e2 = some u)
    (hhash : u.password = some h)
    (hwrong : correctPassword p2 h = false) :
    login store secret nowMs expIn (some e1) (some p1)
      = .error (.app (mkAppError ("Incorrect email or password") 401)) ∧
    login store secret nowMs expIn (some e2) (some p2)
      = .error (.app (mkAppError ("Incorrect email or password") 401)) ∧
    login store secret nowMs expIn (some e1) (some p1)
      = login store secret nowMs expIn (some e2) (some p2) := by
  have h1 : login store secret nowMs expIn (some e1) (some p1)
      = .error (.app (mkAppError ("Incorrect email or password") 401)) := by
    simp [login, jsFalsyString, he1, hp1, hnouser]
  have h2 : login store secret nowMs expIn (some e2) (some p2)
      = .error (.app (mkAppError ("Incorrect email or password") 401)) := by
    simp [login, jsFalsyString, he2, hp2, huser, hhash, hwrong]
  exact ⟨h1, h2, h1.trans h2.symm⟩

/-- C6 witness: concrete unknown-email and wrong-password logins. -/
theorem login_failures_indistinguishable_witness :
    login [sampleUser] 0 0 100 (some ("nobody@x.com")) (some ("whatever12"))
      = .error (.app (mkAppError ("Incorrect email or password") 401)) ∧
    login [sampleUser] 0 0 100 (some ("a@b.com")) (some ("wrongpass1"))
      = .error (.app (mkAppError ("Incorrect email or password") 401)) := by
  have h := login_failures_indistinguishable [sampleUser] 0 0 100
    ("nobody@x.com") ("whatever12") ("a@b.com") ("wrongpass1") sampleUser
    (bcrypt_hash 12 ("abcdefghijklmnopqrstuv") ("password123"))
    (by decide) (by decide) (by decide) (by decide) (by decide) (by decide)
    (by decide) (by decide)
  exact ⟨h.1, h.2.1⟩

/-- C5 counterexample: a verified token whose id resolves to no user is
rejected with status 404 ("User not found!"), not 401 as the claim states. -/
theorem protect_ghost_user_counterexample :
    protect [] 0 (some (("Bearer"), sampleToken)) 0
      = .rejected (.app (mkAppError ("User not found!") 404)) ∧
    (mkAppError ("User not found!") 404).statusCode ≠ 401 := by
  decide

/-- C5 (amended): a verified, unexpired token resolving to no user is
rejected through valdidateResourceExists with NotFound 404 ("User not
found!"), and the request is never authorized (no user is attached; the
handler's missing return makes it dereference the absent user afterwards, but
the 404 routed first is the response). -/
theorem protect_ghost_user_rejects_404 (store : Store) (secret : Nat)
    (scheme : String) (tok : SignedJwt) (nowMs : Nat)
    (hscheme : strStartsWith scheme ("Bearer") = true)
    (hsig : tok.sig = secret)
    (hunexp : nowMs / 1000 < tok.payload.exp)
    (hfind : findById store tok.payload.id = none) :
    protect store secret (some (scheme, tok)) nowMs
      = .rejected (.app (mkAppError ("User not found!") 404)) ∧
    ∀ v, protect store secret (some (scheme, tok)) nowMs ≠ .authorized v := by
  have hbv : jwtVerify tok secret nowMs = .ok tok.payload := by
    unfold jwtVerify
    rw [if_neg (by simp [hsig]), if_neg (Nat.not_le.mpr hunexp)]
  have hmain : protect store secret (some (scheme, tok)) nowMs
      = .rejected (.app (mkAppError ("User not found!") 404)) := by
    simp [protect, hscheme, hbv, hfind]
  exact ⟨hmain, fun v hv => by rw [hmain] at hv; cases hv⟩

/-- C5 witness for the amended statement. -/
theorem protect_ghost_user_rejects_404_witness :
    protect [] 0 (some (("Bearer"), sampleToken)) 5
      = .rejected (.app (mkAppError ("User not found!") 404)) := by
  exact (protect_ghost_user_rejects_404 [] 0 ("Bearer") sampleToken 5
    (by decide) (by decide) (by decide) (by decide)).1

/-- C1 (code-bug evidence): a successful Reset Password leaves the stored
reset hash and expiry untouched — the clears assign `undefined` to the
misspelled, undeclared paths `resetPasswordToken` / `resetPasswordExpires`
instead of the schema's `passwordResetToken` / `passwordResetExpires` — so a
second Reset Password presenting the same raw token before the expiry finds
the user again and proceeds instead of failing with the 400
"Token is invalid or has expired" the claim requires. -/
theorem resetPassword_found_not_invalid (store : Store) (raw : String)
    (pw cpw : Option String) (nowMs secret expIn : Nat) (salt : String)
    (w : UserDoc)
    (hfw : findByResetToken store (sha256Hex raw) nowMs = some w) :
    (resetPassword store raw pw cpw nowMs secret expIn salt).result
      ≠ .error (.app (mkAppError ("Token is invalid or has expired") 400)) := by
  intro hcontra
  simp only [resetPassword, hfw] at hcontra
  split at hcontra
  · simp [createSendToken] at hcontra
  · simp at hcontra

theorem resetPassword_keeps_reset_token (store : Store) (raw : String)
    (pw cpw : Option String) (t1 t2 secret expIn : Nat) (salt : String)
    (u : UserDoc) (e : Nat)
    (hfind : findByResetToken store (sha256Hex raw) t1 = some u)
    (hvalid : validUserDoc { u with password := pw, confirmPassword := cpw,
                                    passwordChangedAt := some t1 } = true)
    (hexp : u.passwordResetExpires = some e)
    (ht2 : t2 < e) :
    ∃ u2, (resetPassword store raw pw cpw t1 secret expIn salt).store
        = saveToStore store u2 ∧
      u2.passwordResetToken = u.passwordResetToken ∧
      u2.passwordResetExpires = u.passwordResetExpires ∧
      (∃ w, findByResetToken (resetPassword store raw pw cpw t1 secret expIn salt).store
          (sha256Hex raw) t2 = some w) ∧
      (resetPassword (resetPassword store raw pw cpw t1 secret expIn salt).store
          raw pw cpw t2 secret expIn salt).result
        ≠ .error (.app (mkAppError ("Token is invalid or has expired") 400)) := by
  have hutok : u.passwordResetToken = some (sha256Hex raw) := by
    have hp := List.find?_some hfind
    rw [Bool.and_eq_true] at hp
    exact of_decide_eq_true hp.1
  have hstore : (resetPassword store raw pw cpw t1 secret expIn salt).store
      = saveToStore store (preSaveHashPassword
          { u with password := pw, confirmPassword := cpw,
                   passwordChangedAt := some t1 } true salt) := by
    simp only [resetPassword]
    rw [hfind]
    simp [hvalid]
  have hmem2 : preSaveHashPassword
      { u with password := pw, confirmPassword := cpw,
               passwordChangedAt := some t1 } true salt
      ∈ (resetPassword store raw pw cpw t1 secret expIn salt).store := by
    rw [hstore]
    exact mem_saveToStore store _ u (List.mem_of_find?_eq_some hfind)
      (by simp [preSaveHashPassword])
  have htok2 : (preSaveHashPassword
      { u with password := pw, confirmPassword := cpw,
               passwordChangedAt := some t1 } true salt).passwordResetToken
      = some (sha256Hex raw) := by
    simp [preSaveHashPassword, hutok]
  have hexp2 : (preSaveHashPassword
      { u with password := pw, confirmPassword := cpw,
               passwordChangedAt := some t1 } true salt).passwordResetExpires
      = some e := by
    simp [preSaveHashPassword, hexp]
  obtain ⟨w, hw, hwt, hwe⟩ := findByResetToken_of_mem
    (resetPassword store raw pw cpw t1 secret expIn salt).store
    (sha256Hex raw) t2 _ e hmem2 htok2 hexp2 ht2
  exact ⟨preSaveHashPassword
      { u with password := pw, confirmPassword := cpw,
               passwordChangedAt := some t1 } true salt,
    hstore, by simp [preSaveHashPassword], by simp [preSaveHashPassword],
    ⟨w, hw⟩,
    resetPassword_found_not_invalid _ raw pw cpw t2 secret expIn salt w hw⟩

/-- C1 witness: the concrete double-spend of one reset token. -/
theorem resetPassword_keeps_reset_token_witness :
    (findByResetToken (resetPassword [sampleUser] ("tok") (some ("newpass123"))
        (some ("newpass123")) 1000 0 100 ("abcdefghijklmnopqrstuv")).store
        (sha256Hex ("tok")) 2000).isSome = true ∧
    (resetPassword (resetPassword [sampleUser] ("tok") (some ("newpass123"))
        (some ("newpass123")) 1000 0 100 ("abcdefghijklmnopqrstuv")).store
        ("tok") (some ("newpass123")) (some ("newpass123")) 2000 0 100
        ("abcdefghijklmnopqrstuv")).result
      ≠ .error (.app (mkAppError ("Token is invalid or has expired") 400)) := by
  obtain ⟨u2, hstore, ht, he, ⟨w, hw⟩, hne⟩ :=
    resetPassword_keeps_reset_token [sampleUser] ("tok") (some ("newpass123"))
      (some ("newpass123")) 1000 2000 0 100 ("abcdefghijklmnopqrstuv")
      sampleUser 600000 (by decide) (by decide) (by decide) (by decide)
  exact ⟨by rw [hw]; rfl, hne⟩

/-- C3 (code-bug evidence): when email delivery fails, forgotPassword answers
the 500 the claim expects, but the compensating clear assigns `undefined` to
the misspelled undeclared paths `resetPasswordToken` / `resetPasswordExpires`,
so the persisted user record still holds the just-set reset hash and expiry —
the dangling token the claim says is removed. -/
theorem forgotPassword_failed_send_keeps_token (store : Store) (email : String)
    (entropy : List Nat) (nowMs : Nat) (u : UserDoc)
    (hfind : findByEmail store (strToLower email) = some u) :
    (forgotPassword store (some email) entropy nowMs false).result
      = .error (.app (mkAppError
          ("There was an error sending the email. Try again later!") 500)) ∧
    ∃ u2, u2 ∈ (forgotPassword store (some email) entropy nowMs false).store ∧
      u2.id = u.id ∧
      u2.passwordResetToken = some (sha256Hex (bytesToHex entropy)) ∧
      u2.passwordResetExpires = some (nowMs + 10 * 60 * 1000) := by
  have hres : (forgotPassword store (some email) entropy nowMs false)
      = { result := .error (.app (mkAppError
            ("There was an error sending the email. Try again later!") 500)),
          store := saveToStore (saveToStore store (createResetToken u entropy nowMs).2)
            (createResetToken u entropy nowMs).2 } := by
    simp [forgotPassword, hfind]
  constructor
  · rw [hres]
  · refine ⟨(createResetToken u entropy nowMs).2, ?_, ?_, rfl, rfl⟩
    · rw [hres]
      have h1 : (createResetToken u entropy nowMs).2
          ∈ saveToStore store (createResetToken u entropy nowMs).2 :=
        mem_saveToStore store _ u (List.mem_of_find?_eq_some hfind)
          (by simp [createResetToken])
      exact mem_saveToStore _ _ _ h1 rfl
    · simp [createResetToken]

/-- C3 witness: a concrete failed send that leaves the token persisted. -/
theorem forgotPassword_failed_send_keeps_token_witness :
    (forgotPassword [sampleSignupUser] (some ("B@C.com")) [7, 7] 0 false).result
      = .error (.app (mkAppError
          ("There was an error sending the email. Try again later!") 500)) ∧
    (createResetToken sampleSignupUser [7, 7] 0).2
        ∈ (forgotPassword [sampleSignupUser] (some ("B@C.com")) [7, 7] 0 false).store ∧
    ((createResetToken sampleSignupUser [7, 7] 0).2).passwordResetToken
      = some (sha256Hex (bytesToHex [7, 7])) := by
  obtain ⟨h1, u2, hmem, hid, htok, hexp⟩ :=
    forgotPassword_failed_send_keeps_token [sampleSignupUser] ("B@C.com")
      [7, 7] 0 sampleSignupUser (by decide)
  refine ⟨h1, ?_, rfl⟩
  have hu2 : u2 = (createResetToken sampleSignupUser [7, 7] 0).2 := by
    have hsub : (forgotPassword [sampleSignupUser] (some ("B@C.com")) [7, 7] 0 false).store
        = [(createResetToken sampleSignupUser [7, 7] 0).2] := by decide
    rw [hsub] at hmem
    simpa using hmem
  rw [← hu2]
  exact hmem

/-- C4 (code-bug evidence): a successful reset lookup persists the re-hashed
password and passwordChangedAt, but the handler then calls
`createSendToken(res, jwtToken, 200)` without the user argument, so the
request ends in the 500 TypeError response with no token — not the 200
success payload with a new session token that the claim requires. -/
theorem resetPassword_responds_500_without_token (store : Store) (raw : String)
    (pw cpw : Option String) (nowMs secret expIn : Nat) (salt : String) (u : UserDoc)
    (hfind : findByResetToken store (sha256Hex raw) nowMs = some u)
    (hvalid : validUserDoc { u with password := pw, confirmPassword := cpw,
                                    passwordChangedAt := some nowMs } = true) :
    (resetPassword store raw pw cpw nowMs secret expIn salt).result
      = .error (.runtime ("Cannot set properties of undefined (setting 'password')")) ∧
    finalResponse (resetPassword store raw pw cpw nowMs secret expIn salt).result
      = { statusCode := 500, status := "error",
          message := some ("Cannot set properties of undefined (setting 'password')"),
          token := none, user := none } ∧
    ∃ u2, (resetPassword store raw pw cpw nowMs secret expIn salt).store
        = saveToStore store u2 ∧
      u2.password = pw.map (bcrypt_hash 12 salt) ∧
      u2.passwordChangedAt = some nowMs ∧
      u2.id = u.id := by
  have hres : (resetPassword store raw pw cpw nowMs secret expIn salt)
      = { result := .error (.runtime
            ("Cannot set properties of undefined (setting 'password')")),
          store := saveToStore store (preSaveHashPassword
            { u with password := pw, confirmPassword := cpw,
                     passwordChangedAt := some nowMs } true salt) } := by
    simp [resetPassword, hfind, hvalid, createSendToken]
  refine ⟨by rw [hres], by rw [hres]; rfl, ?_⟩
  refine ⟨preSaveHashPassword
    { u with password := pw, confirmPassword := cpw,
             passwordChangedAt := some nowMs } true salt,
    by rw [hres], ?_, ?_, ?_⟩
  · simp [preSaveHashPassword]
  · simp [preSaveHashPassword]
  · simp [preSaveHashPassword]

/-- C4 witness: a concrete successful lookup ending in the 500, token-less
response. -/
theorem resetPassword_responds_500_without_token_witness :
    (resetPassword [sampleUser] ("tok") (some ("newpass123")) (some ("newpass123"))
        1500 0 100 ("abcdefghijklmnopqrstuv")).result
      = .error (.runtime ("Cannot set properties of undefined (setting 'password')")) ∧
    (finalResponse (resetPassword [sampleUser] ("tok") (some ("newpass123"))
        (some ("newpass123")) 1500 0 100 ("abcdefghijklmnopqrstuv")).result).statusCode
      = 500 ∧
    (finalResponse (resetPassword [sampleUser] ("tok") (some ("newpass123"))
        (some ("newpass123")) 1500 0 100 ("abcdefghijklmnopqrstuv")).result).token
      = none := by
  have h := resetPassword_responds_500_without_token [sampleUser] ("tok")
    (some ("newpass123")) (some ("newpass123")) 1500 0 100
    ("abcdefghijklmnopqrstuv") sampleUser (by decide) (by decide)
  exact ⟨h.1, by rw [h.2.1], by rw [h.2.1]⟩

/-- C9 (code-bug evidence): `userSchema` declares no
`emailVerificationToken` / `emailVerificationExpires` / `isVerified` paths,
so strict mode drops the handlers' writes to them, the verification lookup
can match no persisted document, and every Verify Email Token request —
whatever the raw token and however it was issued — answers 400
"Token is invalid or has expired" and changes nothing: no verified flag is
ever set and no updated user is ever returned. -/
theorem emailTokenVerify_always_rejects (store : Store) (raw : String) (nowMs : Nat) :
    emailTokenVerify store raw nowMs
      = { result := .error (.app (mkAppError ("Token is invalid or has expired") 400)),
          store := store } := by
  have hnone : findByEmailVerificationToken store (sha256Hex raw) nowMs = none := by
    unfold findByEmailVerificationToken
    apply find?_of_false
    intro x
    simp
  simp [emailTokenVerify, hnone]

end PersonalTracker
